import Mathlib

/-!
Verification of the sonar-tools core: the background-task poller
(`sonarqube/tasks.py`) and the settings / system-info audit engine
(`sonarqube/env.py`).

Python strings are embedded as `List Char`; Python exceptions are embedded
as `Except String`; Python `int` as `Int`; Python floats arising from `/`
on integers as `ℚ` (all values reached here are exactly representable).
Boolean `and` in conditions is embedded as nested `if`s to preserve
Python's short-circuit evaluation order.
-/

namespace Sonar

/-- Embedding of Python strings: a string is its list of characters. -/
abbrev Str := List Char

/-- Problem type enumeration, modelled from the spec: the `audit_problem`
module is not part of the sources at hand; the spec lists the members
SECURITY, CONFIGURATION, PERFORMANCE, OPERATIONS, BAD_PRACTICE, GOVERNANCE. -/
inductive PType where
  | SECURITY
  | CONFIGURATION
  | PERFORMANCE
  | OPERATIONS
  | BAD_PRACTICE
  | GOVERNANCE
deriving DecidableEq, Repr

/-- Problem severity enumeration, modelled from the spec (`LOW..CRITICAL`). -/
inductive Severity where
  | LOW
  | MEDIUM
  | HIGH
  | CRITICAL
deriving DecidableEq, Repr

/-- A finding, modelled from the spec: type, severity and message
(the optional concerned-object reference is not needed by any claim). -/
structure Problem where
  ptype : PType
  severity : Severity
  msg : Str
deriving DecidableEq, Repr

/-- Digits of a decimal literal: `some n` when every character is a digit
and the list is nonempty. -/
def decDigits : Str → Option Nat
  | [] => none
  | [c] => if c.isDigit then some (c.toNat - 48) else none
  | c :: rest =>
    if c.isDigit then
      match decDigits rest with
      | some n => some ((c.toNat - 48) * 10 ^ rest.length + n)
      | none => none
    else none

/-- Embedding of Python `int(s)` on the plain decimal forms that occur in
this code base (an optional sign followed by digits). -/
def pyInt (s : Str) : Option Int :=
  match s with
  | '-' :: rest => (decDigits rest).map (fun n => -(n : Int))
  | '+' :: rest => (decDigits rest).map (fun n => (n : Int))
  | _ => (decDigits s).map (fun n => (n : Int))

/-- Embedding of Python `str` on an `int` value. -/
def pyStr (i : Int) : Str := (toString i).toList

/-- Embedding of Python `s.split(sep)` with a one-character separator:
every occurrence splits, empty pieces are kept. -/
def splitOnChar (sep : Char) : Str → List Str
  | [] => [[]]
  | c :: rest =>
    if c = sep then [] :: splitOnChar sep rest
    else
      match splitOnChar sep rest with
      | [] => [[c]]
      | t :: ts => (c :: t) :: ts

/-- Embedding of Python truncation `int(q)` on a rational (toward zero). -/
def pyTrunc (q : ℚ) : Int := q.num.tdiv q.den

/-- Body of `__get_memory__` for one whitespace-separated token for one whitespace-separated token
that starts with `-Xmx`: `val = int(s[4:-1])`, `unit = s[-1].upper()`.
`ok (some v)` is a `return`, `ok none` means the unit matched none of
M/G/K and the Python loop continues with the next token. -/
def xmxToken (s : Str) : Except String (Option Int) :=
  match pyInt ((s.drop 4).dropLast) with
  | none => .error "ValueError: invalid literal for int"
  | some val =>
    let u := (s.getLast?.getD ' ').toUpper
    if u = 'M' then .ok (some val)
    else if u = 'G' then .ok (some (val * 1024))
    else if u = 'K' then .ok (some (val.fdiv 1024))
    else .ok none

/-- Loop of `__get_memory__` over the tokens of `setting.split(' ')`. -/
def get_memory_tokens : List Str → Except String (Option Int)
  | [] => .ok none
  | s :: rest =>
    if List.isPrefixOf "-Xmx".toList s then
      match xmxToken s with
      | .error e => .error e
      | .ok (some v) => .ok (some v)
      | .ok none => get_memory_tokens rest
    else get_memory_tokens rest

/-- Embedding of `__get_memory__(setting)` from `sonarqube/env.py`: find the first
`-Xmx` token and convert its value to megabytes (M/G/K suffix aware,
`//` is Python floor division); `none` when no token yields a value. -/
def get_memory (setting : Str) : Except String (Option Int) :=
  get_memory_tokens (splitOnChar ' ' setting)

/-- Embedding of `__get_store_size__(setting)` from `sonarqube/env.py`:
`(val, unit) = setting.split(' ')` (exactly two pieces, else ValueError),
MB kept, GB scaled by 1024, anything else yields `None`. -/
def get_store_size (setting : Str) : Except String (Option Int) :=
  match splitOnChar ' ' setting with
  | [val, u] =>
    if u = "MB".toList then
      match pyInt val with
      | none => .error "ValueError: invalid literal for int"
      | some v => .ok (some v)
    else if u = "GB".toList then
      match pyInt val with
      | none => .error "ValueError: invalid literal for int"
      | some v => .ok (some (v * 1024))
    else .ok none
  | _ => .error "ValueError: unpacking mismatch"

/-- Message of the out-of-range finding of `__audit_setting_range__`. -/
def range_msg (key : Str) (value minv maxv : Int) : Str :=
  "Setting ".toList ++ key ++ " value ".toList ++ pyStr value ++
  " is outside recommended range [".toList ++ pyStr minv ++ "-".toList ++
  pyStr maxv ++ "]".toList

/-- Embedding of `__audit_setting_range__(settings, key, min_val, max_val, severity)`
from `sonarqube/env.py`: `value = int(settings[key])` (KeyError when the
key is absent, ValueError when not an integer literal); inside the
inclusive range no finding, outside exactly one CONFIGURATION finding. -/
def audit_setting_range (settings : Str → Option Str) (key : Str)
    (min_val max_val : Int) (severity : Severity) :
    Except String (List Problem) :=
  match settings key with
  | none => .error "KeyError"
  | some s =>
    match pyInt s with
    | none => .error "ValueError: invalid literal for int"
    | some value =>
      if min_val ≤ value ∧ value ≤ max_val then .ok []
      else .ok [⟨PType.CONFIGURATION, severity, range_msg key value min_val max_val⟩]

/-- Embedding of `__normalize_api__(api)` from `sonarqube/env.py`: lower-case, then
prefix with `/`, `/api` or `/api/` depending on how the path starts
(`re.match` anchors at the start of the string). -/
def normalize_api (api : Str) : Str :=
  let low := api.map Char.toLower
  if List.isPrefixOf "/api".toList low then low
  else if List.isPrefixOf "api".toList low then '/' :: low
  else if List.isPrefixOf "/".toList low then "/api".toList ++ low
  else "/api/".toList ++ low

/-- Model of `sysinfo['Compute Engine Tasks']`: the four integer counters read by
the audit code. -/
structure CeTasks where
  workerCount : Int
  success : Int
  error : Int
  pending : Int
deriving DecidableEq, Repr

/-- One entry of `sysinfo['Application Nodes']`: the fields read by
`__audit_dce_settings__`. Plugins are the key/value pairs of the node's
`Plugins` JSON object. -/
structure AppNode where
  name : Str
  version : Str
  plugins : List (Str × Str)
  official : Bool
  health : Str
deriving DecidableEq, Repr

/-- Model of `sysinfo['Statistics']`: only the optional `edition` entry is read. -/
structure SysStats where
  edition : Option Str
deriving DecidableEq, Repr

/-- A system-info snapshot: the fields of the nested JSON that
`audit_sysinfo` and its checks read. `statistics = none` models a
snapshot without a `Statistics` object. -/
structure Sysinfo where
  webJavaOpts : Str
  ceJavaOpts : Str
  searchJavaOpts : Str
  storeSize : Str
  ceTasks : CeTasks
  statistics : Option SysStats
  appNodes : List AppNode
deriving DecidableEq, Repr

/-- Message of the web-memory finding of `__check_web_settings__`. -/
def web_ram_msg (ram : Int) : Str :=
  "sonar.web.javaOpts -Xmx memory setting value is ".toList ++ pyStr ram ++
  " MB, not in recommended range [1024-2048]".toList

/-- Embedding of `__check_web_settings__(sysinfo)` from `sonarqube/env.py`: parse the
`-Xmx` value of `sonar.web.javaOpts`; a `None` value hits the comparison
`web_ram < 1024` and raises TypeError; outside [1024, 2048] one HIGH
PERFORMANCE finding. -/
def check_web_settings (si : Sysinfo) : Except String (List Problem) := do
  let ram? ← get_memory si.webJavaOpts
  match ram? with
  | none => .error "TypeError: NoneType and int comparison"
  | some ram =>
    if ram < 1024 ∨ ram > 2048 then
      .ok [⟨PType.PERFORMANCE, Severity.HIGH, web_ram_msg ram⟩]
    else .ok []

/-- Message of the CE-memory finding of `__audit_ce_settings__`. -/
def ce_ram_msg (ram workers : Int) : Str :=
  "sonar.ce.javaOpts -Xmx memory setting value is ".toList ++ pyStr ram ++
  " MB, not in recommended range ([512-2048] x ".toList ++ pyStr workers ++
  " workers)".toList

/-- Embedding of `__audit_ce_settings__(sysinfo)` from `sonarqube/env.py`. When
`ce_workers > 4` the source evaluates `pb.Type.HIGH`, which is not a
member of the `Type` enumeration the spec lists, so that branch raises
AttributeError. A `None` memory value raises TypeError at the comparison. -/
def audit_ce_settings (si : Sysinfo) : Except String (List Problem) := do
  let ram? ← get_memory si.ceJavaOpts
  let workers := si.ceTasks.workerCount
  if workers > 4 then
    .error "AttributeError: Type has no attribute HIGH"
  else
    match ram? with
    | none => .error "TypeError: NoneType and int comparison"
    | some ram =>
      if ram < 512 * workers ∨ ram > 2048 * workers then
        .ok [⟨PType.PERFORMANCE, Severity.HIGH, ce_ram_msg ram workers⟩]
      else .ok []

/-- Message of the failure-rate finding of `__check_ce_background_tasks__`. -/
def failure_rate_msg (pct : Int) : Str :=
  "Background task failure rate (".toList ++ pyStr pct ++
  "%) is high, verify failed background tasks".toList

/-- Message of the critical pending-count finding. -/
def pending_critical_msg (pending : Int) : Str :=
  "Number of pending background tasks (".toList ++ pyStr pending ++
  ") is very high, verify CE dimensioning".toList

/-- Embedding of `__check_ce_background_tasks__(sysinfo)` from `sonarqube/env.py`.
`failure_rate = ce_error / (ce_success + ce_error)` raises
ZeroDivisionError when the denominator is zero. In the
`ce_pending > 20 and ce_pending > 10 * ce_workers` branch the source
constructs a `pb.Problem` but never appends it to the result list, so
that branch contributes no finding. -/
def check_ce_background_tasks (si : Sysinfo) : Except String (List Problem) :=
  let ce := si.ceTasks
  if ce.success + ce.error = 0 then
    .error "ZeroDivisionError: division by zero"
  else
    let failure_rate : ℚ := (ce.error : ℚ) / ((ce.success : ℚ) + (ce.error : ℚ))
    let p1 : List Problem :=
      if ce.error > 10 then
        if failure_rate > 1 / 100 then
          [⟨PType.OPERATIONS, Severity.HIGH, failure_rate_msg (pyTrunc (failure_rate * 100))⟩]
        else []
      else []
    let p2 : List Problem :=
      if ce.pending > 100 then
        [⟨PType.PERFORMANCE, Severity.CRITICAL, pending_critical_msg ce.pending⟩]
      else if ce.pending > 20 then
        if ce.pending > 10 * ce.workerCount then
          []
        else []
      else []
    .ok (p1 ++ p2)

/-- Message of the search-memory finding of `__audit_es_settings__`. -/
def es_ram_msg (ram index : Int) : Str :=
  "sonar.search.javaOpts -Xmx memory setting value is ".toList ++ pyStr ram ++
  " MB,too low for index size of ".toList ++ pyStr index ++ " MB".toList

/-- Embedding of `__audit_es_settings__(sysinfo)` from `sonarqube/env.py`: a `None`
memory or store size hits arithmetic or a comparison with an int and
raises TypeError. -/
def audit_es_settings (si : Sysinfo) : Except String (List Problem) := do
  let ram? ← get_memory si.searchJavaOpts
  let index? ← get_store_size si.storeSize
  match ram?, index? with
  | some ram, some index =>
    if ram < 2 * index ∧ ram < index + 1000 then
      .ok [⟨PType.PERFORMANCE, Severity.CRITICAL, es_ram_msg ram index⟩]
    else .ok []
  | _, _ => .error "TypeError: NoneType in arithmetic or comparison"

/-- Lexicographic Boolean order on character lists. -/
def strLe : Str → Str → Bool
  | [], _ => true
  | _ :: _, [] => false
  | a :: as, b :: bs =>
    if a.toNat < b.toNat then true
    else if a.toNat = b.toNat then strLe as bs
    else false

/-- Order on plugin entries: by key, then by value. -/
def pluginLe (a b : Str × Str) : Bool :=
  if a.1 = b.1 then strLe a.2 b.2 else strLe a.1 b.1

/-- Insert into a sorted plugin list. -/
def pluginInsert (a : Str × Str) : List (Str × Str) → List (Str × Str)
  | [] => [a]
  | b :: bs => if pluginLe a b then a :: b :: bs else b :: pluginInsert a bs

/-- Canonical form of a `Plugins` object, embedding
`json.dumps(plugins, sort_keys=True, ...)`: two plugin objects compare
equal in the source exactly when their key-sorted renderings agree. -/
def pluginsCanon (l : List (Str × Str)) : List (Str × Str) :=
  l.foldr pluginInsert []

/-- Message of the version-mismatch finding of `__audit_dce_settings__`. -/
def dce_version_msg (refName nodeName : Str) : Str :=
  "App nodes ".toList ++ refName ++ " and ".toList ++ nodeName ++
  " do not run the same SonarQube versions, this must be corrected ASAP".toList

/-- Message of the plugin-mismatch finding of `__audit_dce_settings__`. -/
def dce_plugins_msg (refName nodeName : Str) : Str :=
  "Some plugins on app nodes ".toList ++ refName ++ " and ".toList ++ nodeName ++
  " are different, this must be corrected ASAP".toList

/-- Message of the unofficial-distribution finding. -/
def dce_official_msg (nodeName : Str) : Str :=
  "Node ".toList ++ nodeName ++
  " does not run an official distribution of SonarQube".toList

/-- Message of the node-health finding. -/
def dce_health_msg (nodeName health : Str) : Str :=
  "Node ".toList ++ nodeName ++ " health is ".toList ++ health ++
  ", it should be GREEN".toList

/-- Findings of one iteration of the node loop of `__audit_dce_settings__`:
version, plugins, official distribution, health, in source order. -/
def dce_node_checks (refName refVersion : Str)
    (refPlugins : List (Str × Str)) (node : AppNode) : List Problem :=
  (if node.version ≠ refVersion then
    [⟨PType.OPERATIONS, Severity.CRITICAL, dce_version_msg refName node.name⟩]
  else []) ++
  (if pluginsCanon node.plugins ≠ pluginsCanon refPlugins then
    [⟨PType.OPERATIONS, Severity.CRITICAL, dce_plugins_msg refName node.name⟩]
  else []) ++
  (if !node.official then
    [⟨PType.OPERATIONS, Severity.CRITICAL, dce_official_msg node.name⟩]
  else []) ++
  (if node.health ≠ "GREEN".toList then
    [⟨PType.OPERATIONS, Severity.HIGH, dce_health_msg node.name node.health⟩]
  else [])

/-- Embedding of `__audit_dce_settings__(sysinfo)` from `sonarqube/env.py`: skip when
`Statistics` is missing or the edition is not `datacenter`; otherwise
compare every application node (the reference node included) against the
first node. An empty node list hits `appnodes[0]` and raises IndexError.
The source's `util.logger.util(...)` call is a log statement of the
missing `utilities` module, modelled from the spec as a no-op. -/
def audit_dce_settings (si : Sysinfo) : Except String (List Problem) :=
  match si.statistics with
  | none => .ok []
  | some stats =>
    if stats.edition ≠ some "datacenter".toList then .ok []
    else
      match si.appNodes with
      | [] => .error "IndexError: list index out of range"
      | ref :: rest =>
        .ok (((ref :: rest).map
          (dce_node_checks ref.name ref.version ref.plugins)).flatten)

/-- A Python value that is either an int or a list of findings: the
accumulator of `audit_sysinfo` is dynamically typed in the source. -/
inductive PyVal where
  | int (n : Int)
  | list (l : List Problem)
deriving DecidableEq, Repr

/-- Embedding of Python `x += y` on the dynamic accumulator: adding a
list to an int raises TypeError. -/
def pyIAdd : PyVal → PyVal → Except String PyVal
  | .int a, .int b => .ok (.int (a + b))
  | .list a, .list b => .ok (.list (a ++ b))
  | .int _, .list _ => .error "TypeError: unsupported operand types int and list"
  | .list _, .int _ => .error "TypeError: can only concatenate list to list"

/-- Embedding of `audit_sysinfo(sysinfo)` from `sonarqube/env.py`:
`issues = 0` (an int), then `issues += <check>(sysinfo)` for the five
checks in source order, each of which returns a list of findings. -/
def audit_sysinfo (si : Sysinfo) : Except String PyVal := do
  let issues : PyVal := .int 0
  let r1 ← check_web_settings si
  let issues ← pyIAdd issues (.list r1)
  let r2 ← audit_ce_settings si
  let issues ← pyIAdd issues (.list r2)
  let r3 ← check_ce_background_tasks si
  let issues ← pyIAdd issues (.list r3)
  let r4 ← audit_es_settings si
  let issues ← pyIAdd issues (.list r4)
  let r5 ← audit_dce_settings si
  let issues ← pyIAdd issues (.list r5)
  .ok issues

/-- Model of `Environment` from `sonarqube/env.py`: root URL, token, and the
version fields set by `__init__` to `None` and (partially) filled by
`get_version`. -/
structure Environment where
  root_url : Str
  token : Str
  version : Option Str
  major : Option Str
  minor : Option Str
  patch : Option Str
  build : Option Str
deriving DecidableEq, Repr

/-- Embedding of `Environment.__init__(url, token)`: all version fields start as `None`. -/
def environment_init (url token : Str) : Environment :=
  ⟨url, token, none, none, none, none, none⟩

/-- Embedding of `Environment.get_version()` from `sonarqube/env.py`. The server's
response text to `GET /api/server/version` is given as its four
dot-separated components (the source destructures `split('.')` into
exactly four names). Returns the `(major, minor, patch)` ints, the
updated environment, and the number of HTTP fetches this call performed.
The source guards on `self.version is None` but never assigns
`self.version`. -/
def get_version (server : Str × Str × Str × Str) (e : Environment) :
    Except String ((Int × Int × Int) × Environment × Nat) :=
  let fetched : Environment × Nat :=
    if e.version = none then
      ({ e with major := some server.1, minor := some server.2.1,
                patch := some server.2.2.1, build := some server.2.2.2 }, 1)
    else (e, 0)
  match fetched.1.major, fetched.1.minor, fetched.1.patch with
  | some ma, some mi, some pa =>
    match pyInt ma, pyInt mi, pyInt pa with
    | some a, some b, some c => .ok ((a, b, c), fetched.1, fetched.2)
    | _, _, _ => .error "ValueError: invalid literal for int"
  | _, _, _ => .error "TypeError: int of NoneType"

/-- One record of the `tasks` array of a `ce/activity` response: the id
is the only field `search` reads, the rest of the record is carried as
the task's seed data. -/
structure TaskRec where
  id : Str
  status : Str
deriving DecidableEq, Repr

/-- Model of `Task` from `sonarqube/tasks.py`: key, endpoint reference and the
optional seed JSON record (`_json`). -/
structure Task where
  key : Str
  endpoint : Option Environment
  data : Option TaskRec
deriving DecidableEq, Repr

/-- Embedding of `search(only_current, component_key, endpoint)` from
`sonarqube/tasks.py`: the server is abstracted as a function from the
two request parameters to the returned `tasks` records; one `Task`
handle per record, pre-seeded with the record. -/
def search (server : Bool → Option Str → List TaskRec)
    (only_current : Bool) (component_key : Option Str)
    (endpoint : Option Environment) : List Task :=
  (server only_current component_key).map (fun t => ⟨t.id, endpoint, some t⟩)

/-- Embedding of `search_last(component_key, endpoint)` from `sonarqube/tasks.py`:
`search(only_current=True, component_key=..., endpoint=...)[0]`; the
subscript raises IndexError on an empty result. -/
def search_last (server : Bool → Option Str → List TaskRec)
    (component_key : Str) (endpoint : Option Environment) :
    Except String Task :=
  match search server true (some component_key) endpoint with
  | [] => .error "IndexError: list index out of range"
  | t :: _ => .ok t

/-- Task status values of `sonarqube/tasks.py`: the five wire statuses
plus the synthetic TIMEOUT. -/
inductive TaskStatus where
  | SUCCESS
  | PENDING
  | IN_PROGRESS
  | FAILED
  | CANCELED
  | TIMEOUT
deriving DecidableEq, Repr

/-- The `while` guard of `wait_for_completion`:
`status not in (SUCCESS, FAILED, CANCELED, TIMEOUT)` is false, i.e. the
loop stops, exactly on these statuses. -/
def loopStop (s : TaskStatus) : Bool :=
  match s with
  | .SUCCESS | .FAILED | .CANCELED | .TIMEOUT => true
  | _ => false

/-- The timeout guard of `wait_for_completion`:
`status not in (SUCCESS, FAILED, CANCELED)`. -/
def reportedTerminal (s : TaskStatus) : Bool :=
  match s with
  | .SUCCESS | .FAILED | .CANCELED => true
  | _ => false

/-- The inner `for t in tasks` loop of `wait_for_completion`: the status
becomes the status of the last record whose id equals the task key,
and keeps its previous value when no record matches. -/
def pollFold (key : Str) (resp : List (Str × TaskStatus))
    (status : TaskStatus) : TaskStatus :=
  resp.foldl (fun s t => if t.1 = key then t.2 else s) status

/-- The `while` loop of `Task.wait_for_completion` from
`sonarqube/tasks.py`, with times as exact rationals (every value reached
is a multiple of 1/2, exactly representable by the source's floats) and
the sequence of `ce/activity` responses abstracted as `resp`. `fuel`
bounds the number of iterations so the function is total; `none` means
the bound was hit. Returns the final status and the number of poll
iterations executed. -/
def waitLoop (key : Str) (resp : Nat → List (Str × TaskStatus))
    (timeout : ℚ) : Nat → Nat → ℚ → ℚ → TaskStatus →
    Option (TaskStatus × Nat)
  | 0, _, _, _, _ => none
  | fuel + 1, iter, wait_time, sleep_time, status =>
    if loopStop status then some (status, iter)
    else
      let wait_time' := wait_time + sleep_time
      let sleep_time' := sleep_time * 2
      let polled := pollFold key (resp iter) status
      let status' :=
        if wait_time' ≥ timeout then
          if reportedTerminal polled then polled else .TIMEOUT
        else polled
      waitLoop key resp timeout fuel (iter + 1) wait_time' sleep_time' status'

/-- Embedding of `Task.wait_for_completion(timeout)` from `sonarqube/tasks.py`:
`wait_time = 0`, `sleep_time = 0.5`, initial status PENDING. -/
def wait_for_completion (key : Str) (resp : Nat → List (Str × TaskStatus))
    (timeout : ℚ) (fuel : Nat) : Option (TaskStatus × Nat) :=
  waitLoop key resp timeout fuel 0 0 (1 / 2) TaskStatus.PENDING

/-- Cumulative sleep time after `n` poll iterations: 0.5 + 1 + 2 + ... -/
def cumSleep (n : Nat) : ℚ := ((2 : ℚ) ^ n - 1) / 2

/-- A snapshot whose web memory setting parses cleanly: the first audit
check succeeds and the aggregation itself is exercised. -/
def exSiWeb : Sysinfo :=
  ⟨"-Xmx1024m".toList, [], [], [], ⟨0, 0, 0, 0⟩, none, []⟩

/-- A snapshot with one worker, 100 successful tasks, no failed task and
30 pending tasks. -/
def exSiPending : Sysinfo :=
  ⟨[], [], [], [], ⟨1, 100, 0, 30⟩, none, []⟩

/-- Like `exSiPending` with 150 pending tasks. -/
def exSiPendingCrit : Sysinfo :=
  ⟨[], [], [], [], ⟨1, 100, 0, 150⟩, none, []⟩

/-- A snapshot whose background-task counters are all zero. -/
def exSiZero : Sysinfo :=
  ⟨[], [], [], [], ⟨1, 0, 0, 0⟩, none, []⟩

/-- Two datacenter application nodes, identical in every field, both with
RED health. -/
def exNodeRed1 : AppNode :=
  ⟨"node1".toList, "8.9.1".toList, [("java".toList, "6.3".toList)], true, "RED".toList⟩

/-- Second RED node, same version, plugins and health as `exNodeRed1`. -/
def exNodeRed2 : AppNode :=
  ⟨"node2".toList, "8.9.1".toList, [("java".toList, "6.3".toList)], true, "RED".toList⟩

/-- Datacenter snapshot with the two identical RED-health nodes. -/
def exSiRed : Sysinfo :=
  ⟨[], [], [], [], ⟨0, 0, 0, 0⟩, some ⟨some "datacenter".toList⟩, [exNodeRed1, exNodeRed2]⟩

/-- Datacenter snapshot with two identical healthy official nodes. -/
def exSiGreen : Sysinfo :=
  ⟨[], [], [], [], ⟨0, 0, 0, 0⟩, some ⟨some "datacenter".toList⟩,
   [⟨"node1".toList, "8.9.1".toList, [("java".toList, "6.3".toList)], true, "GREEN".toList⟩,
    ⟨"node2".toList, "8.9.1".toList, [("java".toList, "6.3".toList)], true, "GREEN".toList⟩]⟩

/-- Datacenter snapshot like `exSiGreen` but with differing node versions. -/
def exSiVersions : Sysinfo :=
  ⟨[], [], [], [], ⟨0, 0, 0, 0⟩, some ⟨some "datacenter".toList⟩,
   [⟨"node1".toList, "8.9.1".toList, [("java".toList, "6.3".toList)], true, "GREEN".toList⟩,
    ⟨"node2".toList, "9.0.0".toList, [("java".toList, "6.3".toList)], true, "GREEN".toList⟩]⟩

/-- The four components of a server version response text `8.9.1.12345`. -/
def exServer : Str × Str × Str × Str :=
  ("8".toList, "9".toList, "1".toList, "12345".toList)

/-- A freshly constructed environment. -/
def exEnv0 : Environment :=
  environment_init "http://localhost:9000".toList "token".toList

/-- State of `exEnv0` after one `get_version` call: major/minor/patch/build are
filled in, `version` is still `None`. -/
def exEnv1 : Environment :=
  { exEnv0 with major := some "8".toList, minor := some "9".toList,
                patch := some "1".toList, build := some "12345".toList }

theorem get_memory_tokens_no_match (ts : List Str)
    (h : ∀ t ∈ ts, List.isPrefixOf "-Xmx".toList t = false) :
    get_memory_tokens ts = .ok none := by
  induction ts with
  | nil => rfl
  | cons a as ih =>
    unfold get_memory_tokens
    rw [h a (by simp)]
    simp only [Bool.false_eq_true, if_false]
    exact ih (fun t ht => h t (by simp [ht]))

/-- C6: the -Xmx memory parser maps `-Xmx1024m` to 1024, `-Xmx2g` to
2048 and `-Xmx512k` to 0 (K values divided by 1024 with integer
division), and a setting string none of whose space-separated tokens
starts with `-Xmx` yields no value. -/
theorem get_memory_spec :
    get_memory "-Xmx1024m".toList = .ok (some 1024) ∧
    get_memory "-Xmx2g".toList = .ok (some 2048) ∧
    get_memory "-Xmx512k".toList = .ok (some 0) ∧
    ∀ s : Str, (∀ t ∈ splitOnChar ' ' s,
        List.isPrefixOf "-Xmx".toList t = false) →
      get_memory s = .ok none := by
  refine ⟨rfl, rfl, rfl, ?_⟩
  intro s h
  exact get_memory_tokens_no_match _ h

/-- C6 witness: the parser at the three literal inputs and at a concrete
string without any -Xmx token. -/
theorem get_memory_spec_w :
    get_memory "-Xmx1024m".toList = .ok (some 1024) ∧
    get_memory "-Xmx512k".toList = .ok (some 0) ∧
    get_memory "sonar.jdbc.url postgres".toList = .ok none :=
  ⟨get_memory_spec.1, get_memory_spec.2.2.1,
   get_memory_spec.2.2.2 _ (by decide)⟩

/-- C7: for a numeric range check with bounds `[min_val, max_val]`, a
value equal to either bound produces no finding, while `min_val - 1` and
`max_val + 1` each produce exactly one CONFIGURATION finding at the given
severity. -/
theorem audit_setting_range_bounds (settings : Str → Option Str)
    (key s : Str) (v min_val max_val : Int) (sev : Severity)
    (hk : settings key = some s) (hp : pyInt s = some v)
    (hrange : min_val ≤ max_val) :
    ((v = min_val ∨ v = max_val) →
      audit_setting_range settings key min_val max_val sev = .ok []) ∧
    ((v = min_val - 1 ∨ v = max_val + 1) →
      audit_setting_range settings key min_val max_val sev =
        .ok [⟨PType.CONFIGURATION, sev, range_msg key v min_val max_val⟩]) := by
  unfold audit_setting_range
  rw [hk]
  simp only [hp]
  constructor
  · intro h
    have hin : min_val ≤ v ∧ v ≤ max_val := by rcases h with h | h <;> omega
    rw [if_pos hin]
  · intro h
    have hout : ¬(min_val ≤ v ∧ v ≤ max_val) := by rcases h with h | h <;> omega
    rw [if_neg hout]

/-- C7 witness: key `sonar.x` with value 10 in range [10, 60] yields no
finding; value 9 yields exactly one MEDIUM CONFIGURATION finding. -/
theorem audit_setting_range_bounds_w :
    audit_setting_range
      (fun k => if k = "sonar.x".toList then some "10".toList else none)
      "sonar.x".toList 10 60 Severity.MEDIUM = .ok [] ∧
    audit_setting_range
      (fun k => if k = "sonar.x".toList then some "9".toList else none)
      "sonar.x".toList 10 60 Severity.MEDIUM =
      .ok [⟨PType.CONFIGURATION, Severity.MEDIUM,
            range_msg "sonar.x".toList 9 10 60⟩] :=
  ⟨(audit_setting_range_bounds _ _ "10".toList 10 10 60 _
      (by simp) rfl (by omega)).1 (Or.inl rfl),
   (audit_setting_range_bounds _ _ "9".toList 9 10 60 _
      (by simp) rfl (by omega)).2 (Or.inl rfl)⟩

/-- C8: `search_last` returns exactly the first task of a non-empty
search result, and raises IndexError on an empty result. -/
theorem search_last_spec (server : Bool → Option Str → List TaskRec)
    (ck : Str) (ep : Option Environment) :
    (∀ t ts, search server true (some ck) ep = t :: ts →
      search_last server ck ep = .ok t) ∧
    (search server true (some ck) ep = [] →
      search_last server ck ep = .error "IndexError: list index out of range") := by
  constructor
  · intro t ts h
    unfold search_last
    rw [h]
  · intro h
    unfold search_last
    rw [h]

/-- C8 witness: a server with one task record for the component, and one
with none. -/
theorem search_last_spec_w :
    search_last (fun _ _ => [⟨"AX1".toList, "SUCCESS".toList⟩]) "proj".toList none =
      .ok ⟨"AX1".toList, none, some ⟨"AX1".toList, "SUCCESS".toList⟩⟩ ∧
    search_last (fun _ _ => []) "proj".toList none =
      .error "IndexError: list index out of range" :=
  ⟨(search_last_spec (fun _ _ => [⟨"AX1".toList, "SUCCESS".toList⟩])
      "proj".toList none).1 _ _ rfl,
   (search_last_spec (fun _ _ => []) "proj".toList none).2 rfl⟩

/-- C9: when `Processed With Success` and `Processed With Error` are both
zero, the failure-rate division has denominator zero and
`__check_ce_background_tasks__` raises ZeroDivisionError. -/
theorem check_ce_background_tasks_div_zero (si : Sysinfo)
    (hs : si.ceTasks.success = 0) (he : si.ceTasks.error = 0) :
    check_ce_background_tasks si = .error "ZeroDivisionError: division by zero" := by
  simp only [check_ce_background_tasks, hs, he]
  norm_num

/-- C9 witness: the all-zero counter snapshot. -/
theorem check_ce_background_tasks_div_zero_w :
    check_ce_background_tasks exSiZero = .error "ZeroDivisionError: division by zero" :=
  check_ce_background_tasks_div_zero exSiZero rfl rfl

/-- C3 (code slip): with 30 pending tasks and 1 worker the source enters
the `ce_pending > 20 and ce_pending > 10 * ce_workers` branch, constructs
the HIGH PERFORMANCE problem but never appends it, so no finding is
returned; with 150 pending tasks the CRITICAL finding is returned. -/
theorem check_ce_background_tasks_pending_eval :
    check_ce_background_tasks exSiPending = .ok [] ∧
    check_ce_background_tasks exSiPendingCrit =
      .ok [⟨PType.PERFORMANCE, Severity.CRITICAL, pending_critical_msg 150⟩] :=
  ⟨rfl, rfl⟩

/-- C4 (code slip): `get_version` never assigns `self.version`, so the
guard `self.version is None` holds on every call and each call performs
one HTTP fetch: two consecutive calls on a fresh environment fetch twice
instead of once. -/
theorem get_version_refetches :
    get_version exServer exEnv0 = .ok ((8, 9, 1), exEnv1, 1) ∧
    get_version exServer exEnv1 = .ok ((8, 9, 1), exEnv1, 1) :=
  ⟨rfl, rfl⟩

/-- C2 (code slip): `audit_sysinfo` initialises its accumulator to the
int 0 and immediately adds a list of findings to it, so it raises
TypeError instead of returning the concatenation of the checks'
findings. -/
theorem audit_sysinfo_type_error :
    audit_sysinfo exSiWeb = .error "TypeError: unsupported operand types int and list" :=
  rfl

/-- C5 counterexample: a datacenter snapshot whose two application nodes
are identical in version, plugins and health — but the health is RED on
both — yields two findings, not zero: the health check compares against
the literal GREEN, not against the reference node. -/
theorem audit_dce_settings_identical_not_zero :
    audit_dce_settings exSiRed =
      .ok [⟨PType.OPERATIONS, Severity.HIGH,
              dce_health_msg "node1".toList "RED".toList⟩,
           ⟨PType.OPERATIONS, Severity.HIGH,
              dce_health_msg "node2".toList "RED".toList⟩] ∧
    audit_dce_settings exSiRed ≠ .ok [] := by
  refine ⟨rfl, fun h => ?_⟩
  rw [(rfl : audit_dce_settings exSiRed =
      .ok [⟨PType.OPERATIONS, Severity.HIGH,
              dce_health_msg "node1".toList "RED".toList⟩,
           ⟨PType.OPERATIONS, Severity.HIGH,
              dce_health_msg "node2".toList "RED".toList⟩])] at h
  exact List.cons_ne_nil _ _ (Except.ok.inj h)

/-- C5 as amended: for a datacenter snapshot with two application nodes
of identical version and plugin set, both running an official
distribution with GREEN health, the cluster audit returns zero findings;
with the same shape but differing node versions it returns exactly one
CRITICAL finding whose message names both nodes. -/
theorem audit_dce_settings_consistency (si si' : Sysinfo)
    (n1 n2 v v1 v2 : Str) (P : List (Str × Str))
    (h1 : si.statistics = some ⟨some "datacenter".toList⟩)
    (h2 : si.appNodes = [⟨n1, v, P, true, "GREEN".toList⟩,
                         ⟨n2, v, P, true, "GREEN".toList⟩])
    (h3 : si'.statistics = some ⟨some "datacenter".toList⟩)
    (h4 : si'.appNodes = [⟨n1, v1, P, true, "GREEN".toList⟩,
                          ⟨n2, v2, P, true, "GREEN".toList⟩])
    (hv : v1 ≠ v2) :
    audit_dce_settings si = .ok [] ∧
    audit_dce_settings si' =
      .ok [⟨PType.OPERATIONS, Severity.CRITICAL, dce_version_msg n1 n2⟩] := by
  constructor
  · unfold audit_dce_settings
    rw [h1]
    simp [h2, dce_node_checks]
  · unfold audit_dce_settings
    rw [h3]
    have hv' : v2 ≠ v1 := Ne.symm hv
    simp [h4, dce_node_checks, hv']

/-- C5 witness: the two concrete healthy snapshots. -/
theorem audit_dce_settings_consistency_w :
    audit_dce_settings exSiGreen = .ok [] ∧
    audit_dce_settings exSiVersions =
      .ok [⟨PType.OPERATIONS, Severity.CRITICAL,
            dce_version_msg "node1".toList "node2".toList⟩] :=
  audit_dce_settings_consistency exSiGreen exSiVersions
    "node1".toList "node2".toList "8.9.1".toList "8.9.1".toList "9.0.0".toList
    [("java".toList, "6.3".toList)] rfl rfl rfl rfl (by decide)

theorem char_toNat_ofNat_valid (n : Nat) (h1 : 97 ≤ n) (h2 : n ≤ 122) :
    (Char.ofNat n).toNat = n := by
  have hv : n.isValidChar := Or.inl (by omega)
  rw [Char.ofNat, dif_pos hv]
  simp [Char.ofNatAux, Char.toNat, UInt32.toNat, BitVec.toNat_ofNatLt]

theorem char_toLower_eq_self (c : Char)
    (h : ¬(65 ≤ c.toNat ∧ c.toNat ≤ 90)) : Char.toLower c = c := by
  unfold Char.toLower
  exact if_neg (fun hc => h ⟨hc.1, hc.2⟩)

theorem char_toLower_idem (c : Char) :
    Char.toLower (Char.toLower c) = Char.toLower c := by
  by_cases h : 65 ≤ c.toNat ∧ c.toNat ≤ 90
  · have hl : Char.toLower c = Char.ofNat (c.toNat + 32) := by
      unfold Char.toLower
      exact if_pos ⟨h.1, h.2⟩
    have ht : (Char.toLower c).toNat = c.toNat + 32 := by
      rw [hl]
      exact char_toNat_ofNat_valid _ (by omega) (by omega)
    apply char_toLower_eq_self
    omega
  · rw [char_toLower_eq_self c h]
    exact char_toLower_eq_self c h

theorem map_toLower_idem (l : Str) :
    (l.map Char.toLower).map Char.toLower = l.map Char.toLower := by
  rw [List.map_map]
  exact List.map_congr_left (fun a _ => char_toLower_idem a)

theorem normalize_api_lower (s : Str) :
    (normalize_api s).map Char.toLower = normalize_api s := by
  simp only [normalize_api]
  split
  · exact map_toLower_idem s
  · split
    · simp only [List.map_cons, map_toLower_idem s]
      rfl
    · split
      · simp only [List.map_append, map_toLower_idem s]
        rfl
      · simp only [List.map_append, map_toLower_idem s]
        rfl

theorem normalize_api_head (s : Str) :
    List.isPrefixOf "/api".toList (normalize_api s) = true := by
  simp only [normalize_api]
  split
  · assumption
  · split
    · rename_i h3
      rw [ List.isPrefixOf_iff_prefix] at h3 ⊢
      obtain ⟨t, ht⟩ := h3
      exact ⟨t, by rw [← ht]; rfl⟩
    · split
      · rw [ List.isPrefixOf_iff_prefix]
        exact List.prefix_append _ _
      · rw [ List.isPrefixOf_iff_prefix]
        have : ("/api/".toList : Str) ++ s.map Char.toLower =
            "/api".toList ++ ('/' :: s.map Char.toLower) := rfl
        rw [this]
        exact List.prefix_append _ _

theorem normalize_api_fixed (t : Str) (hl : t.map Char.toLower = t)
    (hp : List.isPrefixOf "/api".toList t = true) : normalize_api t = t := by
  unfold normalize_api
  simp only [hl, hp, if_pos]

/-- C10: `__normalize_api__` always returns a lower-cased path that
starts with `/api`, and it is idempotent: applied to its own output it
returns that output unchanged. -/
theorem normalize_api_spec (s : Str) :
    List.isPrefixOf "/api".toList (normalize_api s) = true ∧
    (normalize_api s).map Char.toLower = normalize_api s ∧
    normalize_api (normalize_api s) = normalize_api s :=
  ⟨normalize_api_head s, normalize_api_lower s,
   normalize_api_fixed _ (normalize_api_lower s) (normalize_api_head s)⟩

theorem cumSleep_succ (i : Nat) :
    cumSleep i + (2 : ℚ) ^ i / 2 = cumSleep (i + 1) := by
  unfold cumSleep
  rw [pow_succ]
  ring

theorem sleep_time_succ (i : Nat) :
    (2 : ℚ) ^ i / 2 * 2 = (2 : ℚ) ^ (i + 1) / 2 := by
  rw [pow_succ]
  ring

theorem cumSleep_le_of_le (a b : Nat) (h : a ≤ b) : cumSleep a ≤ cumSleep b := by
  unfold cumSleep
  have : (2 : ℚ) ^ a ≤ (2 : ℚ) ^ b := by
    apply pow_le_pow_right₀ (by norm_num) h
  linarith

theorem pollFold_nonterminal (key : Str) (resp : List (Str × TaskStatus))
    (st : TaskStatus)
    (hresp : ∀ p ∈ resp, p.1 = key → p.2 = .PENDING ∨ p.2 = .IN_PROGRESS)
    (hst : st = .PENDING ∨ st = .IN_PROGRESS) :
    pollFold key resp st = .PENDING ∨ pollFold key resp st = .IN_PROGRESS := by
  induction resp generalizing st with
  | nil => exact hst
  | cons p ps ih =>
    unfold pollFold
    simp only [List.foldl_cons]
    apply ih
    · intro q hq hqk
      exact hresp q (by simp [hq]) hqk
    · by_cases h : p.1 = key
      · rw [if_pos h]
        exact hresp p (by simp) h
      · rw [if_neg h]
        exact hst

theorem waitLoop_timeout (key : Str) (resp : Nat → List (Str × TaskStatus))
    (timeout : ℚ)
    (hresp : ∀ k, ∀ p ∈ resp k, p.1 = key → p.2 = .PENDING ∨ p.2 = .IN_PROGRESS)
    (n : Nat) (h2 : timeout ≤ cumSleep n)
    (hmin : ∀ m, 1 ≤ m → timeout ≤ cumSleep m → n ≤ m) :
    ∀ fuel i st, i < n → (st = .PENDING ∨ st = .IN_PROGRESS) →
      n + 1 ≤ fuel + i →
      waitLoop key resp timeout fuel i (cumSleep i) ((2 : ℚ) ^ i / 2) st =
        some (.TIMEOUT, n) := by
  intro fuel
  induction fuel with
  | zero =>
    intro i st hi _ hf
    omega
  | succ f ih =>
    intro i st hi hst hf
    have hstop : loopStop st = false := by
      rcases hst with h | h <;> rw [h] <;> rfl
    have hpoll : pollFold key (resp i) st = .PENDING ∨
        pollFold key (resp i) st = .IN_PROGRESS :=
      pollFold_nonterminal key (resp i) st (fun p hp hk => hresp i p hp hk) hst
    have hterm : reportedTerminal (pollFold key (resp i) st) = false := by
      rcases hpoll with h | h <;> rw [h] <;> rfl
    simp only [waitLoop, hstop, Bool.false_eq_true, if_false,
      cumSleep_succ, sleep_time_succ, hterm]
    by_cases hc : cumSleep (i + 1) ≥ timeout
    · rw [if_pos hc]
      have hn : n = i + 1 := by
        have := hmin (i + 1) (by omega) hc
        omega
      obtain ⟨f', rfl⟩ : ∃ f', f = f' + 1 := ⟨f - 1, by omega⟩
      simp only [waitLoop]
      rw [if_pos (show loopStop TaskStatus.TIMEOUT = true from rfl)]
      rw [hn]
    · rw [if_neg hc]
      have hi' : i + 1 < n := by
        rcases Nat.lt_or_ge (i + 1) n with h | h
        · exact h
        · exfalso
          exact hc (le_trans h2 (cumSleep_le_of_le n (i + 1) h))
      exact ih (i + 1) _ hi' hpoll (by omega)

/-- C1: a task whose reported status never reaches SUCCESS, FAILED or
CANCELED makes `wait_for_completion(T)` return TIMEOUT, and it does so
at the first poll iteration `n` at which the cumulative sleep time
(0.5 doubling each iteration, uncapped) reaches `T`; `fuel` is the
totality bound of the embedding and any value past `n` gives the same
run. -/
theorem wait_for_completion_timeout (key : Str)
    (resp : Nat → List (Str × TaskStatus)) (timeout : ℚ) (n fuel : Nat)
    (hresp : ∀ k, ∀ p ∈ resp k, p.1 = key → p.2 = .PENDING ∨ p.2 = .IN_PROGRESS)
    (h1 : 1 ≤ n) (h2 : timeout ≤ cumSleep n)
    (hmin : ∀ m, 1 ≤ m → timeout ≤ cumSleep m → n ≤ m)
    (hfuel : n + 1 ≤ fuel) :
    wait_for_completion key resp timeout fuel = some (.TIMEOUT, n) := by
  have h := waitLoop_timeout key resp timeout hresp n h2 hmin fuel 0
    .PENDING (by omega) (Or.inl rfl) (by omega)
  unfold wait_for_completion
  have e0 : (0 : ℚ) = cumSleep 0 := by
    unfold cumSleep
    norm_num
  have e1 : (1 : ℚ) / 2 = (2 : ℚ) ^ 0 / 2 := by
    norm_num
  rw [e0, e1]
  exact h

/-- C1 witness: a task key `k` that every poll reports PENDING, with
timeout 3: cumulative sleep reaches 3 first at iteration 3
(0.5 + 1 + 2 = 3.5), so the call returns TIMEOUT after 3 polls. -/
theorem wait_for_completion_timeout_w :
    wait_for_completion "k".toList (fun _ => [("k".toList, .PENDING)]) 3 4 =
      some (.TIMEOUT, 3) := by
  apply wait_for_completion_timeout
  · intro k p hp hk
    simp only [List.mem_singleton] at hp
    rw [hp]
    exact Or.inl rfl
  · omega
  · unfold cumSleep
    norm_num
  · intro m h1m h2m
    by_contra hlt
    push_neg at hlt
    interval_cases m <;> unfold cumSleep at h2m <;> norm_num at h2m
  · omega

/-- C10 witness: the normalization at a concrete mixed-case input. -/
theorem normalize_api_spec_w :
    List.isPrefixOf "/api".toList (normalize_api "Issues/Search".toList) = true ∧
    (normalize_api "Issues/Search".toList).map Char.toLower =
      normalize_api "Issues/Search".toList ∧
    normalize_api (normalize_api "Issues/Search".toList) =
      normalize_api "Issues/Search".toList :=
  normalize_api_spec "Issues/Search".toList

end Sonar
